import Mathlib

/-!
Shallow embedding of the `VInferenceEscrow` Solidity contract
(src/backend/contracts/Escrow.sol) and proofs about its escrow
state machine.

Modelling conventions:
* `address` and `bytes32` are modelled as `Nat` (`0` is the zero address /
  zero hash).  `uint256` is `Nat` with explicit bound checks where the
  source performs Solidity 0.8 checked arithmetic (`+=`, `-=`, `+`): an
  overflowing addition or underflowing subtraction reverts, modelled as
  the error `EscrowError.arithmetic`.
* Each external function is a Lean function from a call environment and a
  pre-state to `Except EscrowError ContractState`.  Following EVM
  semantics, `Except.error` means the whole call reverts: the caller of
  the model interprets an error as "state unchanged" (see `exec`).
  Consequently the textual order of state writes inside a function body
  is irrelevant to the result; only the guard structure matters.
* A low-level value transfer `payable(a).call{value: v}("")` succeeds iff
  the recipient accepts ETH (`transferOk a = true` in the call
  environment) and the contract balance covers `v`.
* The external verifier call in `releaseWithProof` is
  `(bool verified, ) = verifierContract.call(abi.encodeWithSignature(...))`.
  The environment field `verifierAt addr proof inputs : Option Bool`
  models the outcome of that call: `none` means the call reverts,
  `some b` means the call succeeds and returns the boolean `b`.  The
  source binds only the call-success flag (`verified`) and discards the
  returned boolean, so the model tests `Option.isSome` — exactly what the
  code does.
* Events and the `reason` string of `refundEscrow` only affect emitted
  logs, never contract state, so they are not modelled.
-/

namespace VEscrow

/-- EVM addresses, modelled as naturals; `0` is the zero address. -/
abbrev Address := Nat

/-- `bytes32` values (job ids, proof hashes), modelled as naturals. -/
abbrev B32 := Nat

/-- Largest value representable in a `uint256`. -/
def UINT256_MAX : Nat := 2 ^ 256 - 1

/-- The `EscrowRecord` struct of the contract. -/
structure EscrowRecord where
  buyer : Address
  provider : Address
  amount : Nat
  createdAt : Nat
  isReleased : Bool
  isRefunded : Bool
  proofHash : B32
deriving DecidableEq

/-- The all-zero record a Solidity mapping returns for an absent key. -/
def rec0 : EscrowRecord :=
  { buyer := 0, provider := 0, amount := 0, createdAt := 0
    isReleased := false, isRefunded := false, proofHash := 0 }

/-- Contract storage plus the contract's ETH balance. -/
structure ContractState where
  owner : Address
  verifierContract : Address
  escrows : B32 → EscrowRecord
  lockedBalance : Address → Nat
  providerEarnings : Address → Nat
  balance : Nat

/-- Pointwise map update (Solidity `m[k] = v`). -/
def upd {α : Type} (f : Nat → α) (k : Nat) (v : α) : Nat → α :=
  fun x => if x = k then v else f x

/-- Environment of a single external call: `msg.sender`, `block.timestamp`,
which recipients accept plain ETH transfers, and the behaviour of the
contract deployed at each address when called with
`verify(bytes,uint256[])` (`none` = the call reverts, `some b` = the call
succeeds returning `b`). -/
structure CallEnv where
  sender : Address
  timestamp : Nat
  transferOk : Address → Bool
  verifierAt : Address → List Nat → List Nat → Option Bool

/-- Revert reasons of the contract, one per `require` site, plus
`arithmetic` for Solidity 0.8 checked-arithmetic panics. -/
inductive EscrowError where
  | invalidAmount          -- "Must send ETH"
  | invalidProvider        -- "Invalid provider" / "Cannot escrow to self"
  | duplicateJob           -- "Escrow already exists"
  | notFound               -- "Escrow does not exist"
  | alreadySettled         -- "Already released" / "Already refunded"
  | unauthorized           -- "Not authorized"
  | tooEarly               -- "Cannot refund yet"
  | transferFailed         -- "Transfer failed"
  | verifierNotConfigured  -- "Verifier not set"
  | verificationFailed     -- "Proof verification failed"
  | onlyOwner              -- "Only owner"
  | invalidAddress         -- "Invalid address"
  | arithmetic             -- checked-arithmetic panic (overflow/underflow)
deriving DecidableEq

/-- Computable stand-in for the EVM `keccak256` primitive on byte strings;
no claim depends on any property of the hash beyond determinism. -/
def keccak256 (bs : List Nat) : B32 :=
  bs.foldl (fun h b => (h * 257 + b + 1) % 2 ^ 256) 1

/-- State after `constructor()` run by `deployer` (`owner = msg.sender`;
every other storage slot is zero). -/
def initState (deployer : Address) : ContractState :=
  { owner := deployer, verifierContract := 0, escrows := fun _ => rec0
    lockedBalance := fun _ => 0, providerEarnings := fun _ => 0, balance := 0 }

/-- Successor state of a successful `createEscrow` (all the storage writes
of the function body). -/
def createdState (env : CallEnv) (value : Nat) (st : ContractState)
    (jobId : B32) (provider : Address) : ContractState :=
  { st with
    balance := st.balance + value
    escrows := upd st.escrows jobId
      { buyer := env.sender, provider := provider, amount := value
        createdAt := env.timestamp, isReleased := false, isRefunded := false
        proofHash := 0 }
    lockedBalance := upd st.lockedBalance env.sender
      (st.lockedBalance env.sender + value) }

/-- `createEscrow(jobId, provider)`, `payable` with `msg.value = value`. -/
def createEscrow (env : CallEnv) (value : Nat) (st : ContractState)
    (jobId : B32) (provider : Address) : Except EscrowError ContractState :=
  if value = 0 then .error .invalidAmount
  else if provider = 0 then .error .invalidProvider
  else if provider = env.sender then .error .invalidProvider
  else if (st.escrows jobId).amount ≠ 0 then .error .duplicateJob
  else if ¬ st.lockedBalance env.sender + value ≤ UINT256_MAX then .error .arithmetic
  else .ok (createdState env value st jobId provider)

/-- Successor state of a successful release (shared body of
`releaseEscrow` and `releaseWithProof`): mark released, record the proof
hash, move `amount` from the buyer's locked balance to the provider's
earnings, pay the provider. -/
def releasedState (st : ContractState) (jobId : B32) (ph : B32) : ContractState :=
  { st with
    escrows := upd st.escrows jobId
      { st.escrows jobId with isReleased := true, proofHash := ph }
    lockedBalance := upd st.lockedBalance (st.escrows jobId).buyer
      (st.lockedBalance (st.escrows jobId).buyer - (st.escrows jobId).amount)
    providerEarnings := upd st.providerEarnings (st.escrows jobId).provider
      (st.providerEarnings (st.escrows jobId).provider + (st.escrows jobId).amount)
    balance := st.balance - (st.escrows jobId).amount }

/-- Settlement tail shared by `releaseEscrow` and `releaseWithProof`
(identical statement sequences in the source, differing only in the
stored proof hash): checked `-=` on the buyer's locked balance, checked
`+=` on the provider's earnings, then the payout transfer guarded by
`require(success, "Transfer failed")`. -/
def payoutRelease (env : CallEnv) (st : ContractState) (jobId : B32)
    (ph : B32) : Except EscrowError ContractState :=
  if ¬ (st.escrows jobId).amount ≤ st.lockedBalance (st.escrows jobId).buyer then
    .error .arithmetic
  else if ¬ st.providerEarnings (st.escrows jobId).provider + (st.escrows jobId).amount
      ≤ UINT256_MAX then
    .error .arithmetic
  else if ¬ (env.transferOk (st.escrows jobId).provider = true ∧
      (st.escrows jobId).amount ≤ st.balance) then
    .error .transferFailed
  else .ok (releasedState st jobId ph)

/-- `releaseEscrow(jobId, proofHash)`: modifiers `escrowExists` and
`escrowNotSettled`, then the buyer-or-owner authorization check, then the
settlement. -/
def releaseEscrow (env : CallEnv) (st : ContractState) (jobId : B32)
    (ph : B32) : Except EscrowError ContractState :=
  if (st.escrows jobId).amount = 0 then .error .notFound
  else if (st.escrows jobId).isReleased = true then .error .alreadySettled
  else if (st.escrows jobId).isRefunded = true then .error .alreadySettled
  else if ¬ (env.sender = (st.escrows jobId).buyer ∨ env.sender = st.owner) then
    .error .unauthorized
  else payoutRelease env st jobId ph

/-- `releaseWithProof(jobId, proof, publicInputs)`: same modifiers, then
`require(verifierContract != address(0))`, then the low-level call to the
verifier.  The source checks only the call-success flag
(`(bool verified, ) = verifierContract.call(...)`) — the boolean the
verifier returns is discarded — so the model tests `Option.isSome`.
`msg.sender` is never consulted. -/
def releaseWithProof (env : CallEnv) (st : ContractState) (jobId : B32)
    (proof : List Nat) (publicInputs : List Nat) :
    Except EscrowError ContractState :=
  if (st.escrows jobId).amount = 0 then .error .notFound
  else if (st.escrows jobId).isReleased = true then .error .alreadySettled
  else if (st.escrows jobId).isRefunded = true then .error .alreadySettled
  else if st.verifierContract = 0 then .error .verifierNotConfigured
  else if ¬ (env.verifierAt st.verifierContract proof publicInputs).isSome = true then
    .error .verificationFailed
  else payoutRelease env st jobId (keccak256 proof)

/-- Successor state of a successful `refundEscrow`: mark refunded,
decrease the buyer's locked balance, pay the buyer back.  The provider's
earnings map is untouched. -/
def refundedState (st : ContractState) (jobId : B32) : ContractState :=
  { st with
    escrows := upd st.escrows jobId { st.escrows jobId with isRefunded := true }
    lockedBalance := upd st.lockedBalance (st.escrows jobId).buyer
      (st.lockedBalance (st.escrows jobId).buyer - (st.escrows jobId).amount)
    balance := st.balance - (st.escrows jobId).amount }

/-- Refund tail: checked `-=` on the buyer's locked balance, then the
payout transfer back to the buyer. -/
def payoutRefund (env : CallEnv) (st : ContractState) (jobId : B32) :
    Except EscrowError ContractState :=
  if ¬ (st.escrows jobId).amount ≤ st.lockedBalance (st.escrows jobId).buyer then
    .error .arithmetic
  else if ¬ (env.transferOk (st.escrows jobId).buyer = true ∧
      (st.escrows jobId).amount ≤ st.balance) then
    .error .transferFailed
  else .ok (refundedState st jobId)

/-- `refundEscrow(jobId, reason)`: modifiers, buyer-or-owner check, then —
only when the caller is the buyer — the 24-hour gate
`require(block.timestamp > escrow.createdAt + 24 hours || msg.sender == owner)`.
The checked addition `createdAt + 24 hours` (86400 seconds) is evaluated
before the disjunction, so its overflow reverts first. -/
def refundEscrow (env : CallEnv) (st : ContractState) (jobId : B32) :
    Except EscrowError ContractState :=
  if (st.escrows jobId).amount = 0 then .error .notFound
  else if (st.escrows jobId).isReleased = true then .error .alreadySettled
  else if (st.escrows jobId).isRefunded = true then .error .alreadySettled
  else if ¬ (env.sender = (st.escrows jobId).buyer ∨ env.sender = st.owner) then
    .error .unauthorized
  else if env.sender = (st.escrows jobId).buyer then
    if ¬ (st.escrows jobId).createdAt + 86400 ≤ UINT256_MAX then .error .arithmetic
    else if (st.escrows jobId).createdAt + 86400 < env.timestamp ∨ env.sender = st.owner then
      payoutRefund env st jobId
    else .error .tooEarly
  else payoutRefund env st jobId

/-- `getEscrow(jobId)` view. -/
def getEscrow (st : ContractState) (jobId : B32) : EscrowRecord :=
  st.escrows jobId

/-- `isPending(jobId)` view: `amount > 0 && !isReleased && !isRefunded`. -/
def isPending (st : ContractState) (jobId : B32) : Bool :=
  decide (0 < (st.escrows jobId).amount) &&
    !(st.escrows jobId).isReleased && !(st.escrows jobId).isRefunded

/-- `setVerifier(_verifier)`, `onlyOwner`. -/
def setVerifier (env : CallEnv) (st : ContractState) (v : Address) :
    Except EscrowError ContractState :=
  if ¬ env.sender = st.owner then .error .onlyOwner
  else .ok { st with verifierContract := v }

/-- `transferOwnership(newOwner)`, `onlyOwner`, rejects the zero address. -/
def transferOwnership (env : CallEnv) (st : ContractState) (newOwner : Address) :
    Except EscrowError ContractState :=
  if ¬ env.sender = st.owner then .error .onlyOwner
  else if newOwner = 0 then .error .invalidAddress
  else .ok { st with owner := newOwner }

/-- `emergencyWithdraw()`, `onlyOwner`: transfers `address(this).balance`
— the entire balance — to the owner. -/
def emergencyWithdraw (env : CallEnv) (st : ContractState) :
    Except EscrowError ContractState :=
  if ¬ env.sender = st.owner then .error .onlyOwner
  else if ¬ env.transferOk st.owner = true then .error .transferFailed
  else .ok { st with balance := 0 }

/-- `receive()` — plain ETH deposits only grow the balance. -/
def receiveEth (value : Nat) (st : ContractState) : ContractState :=
  { st with balance := st.balance + value }

/-- EVM revert semantics at the transaction boundary: a reverted call
leaves the pre-state. -/
def exec (st : ContractState) (r : Except EscrowError ContractState) :
    ContractState :=
  match r with
  | .ok st' => st'
  | .error _ => st

/-- One external transaction against the contract. -/
inductive Op where
  | create (env : CallEnv) (value : Nat) (jobId : B32) (provider : Address)
  | release (env : CallEnv) (jobId : B32) (ph : B32)
  | releaseP (env : CallEnv) (jobId : B32) (proof : List Nat) (inputs : List Nat)
  | refund (env : CallEnv) (jobId : B32)
  | setVer (env : CallEnv) (v : Address)
  | transferOwn (env : CallEnv) (newOwner : Address)
  | withdraw (env : CallEnv)
  | recv (value : Nat)

/-- Apply one transaction; a reverted transaction leaves the state as is. -/
def applyOp (st : ContractState) : Op → ContractState
  | .create env v j p => exec st (createEscrow env v st j p)
  | .release env j ph => exec st (releaseEscrow env st j ph)
  | .releaseP env j pf ins => exec st (releaseWithProof env st j pf ins)
  | .refund env j => exec st (refundEscrow env st j)
  | .setVer env v => exec st (setVerifier env st v)
  | .transferOwn env o => exec st (transferOwnership env st o)
  | .withdraw env => exec st (emergencyWithdraw env st)
  | .recv v => receiveEth v st

/-- States reachable from deployment by a sequence of transactions. -/
inductive Reachable : ContractState → Prop
  | init (deployer : Address) : Reachable (initState deployer)
  | step {st : ContractState} (op : Op) : Reachable st → Reachable (applyOp st op)

/-! ### Basic lemmas about map updates and successful calls -/

theorem upd_same {α : Type} (f : Nat → α) (k : Nat) (v : α) : upd f k v k = v := by
  simp [upd]

theorem upd_ne {α : Type} (f : Nat → α) (k : Nat) (v : α) {j : Nat} (h : j ≠ k) :
    upd f k v j = f j := by
  simp [upd, h]

/-- Inversion of a successful `createEscrow`: all guards passed and the
result is `createdState`. -/
theorem createEscrow_ok {env : CallEnv} {value : Nat} {st : ContractState}
    {jobId : B32} {provider : Address} {st' : ContractState}
    (h : createEscrow env value st jobId provider = .ok st') :
    value ≠ 0 ∧ provider ≠ 0 ∧ provider ≠ env.sender ∧
    (st.escrows jobId).amount = 0 ∧
    st.lockedBalance env.sender + value ≤ UINT256_MAX ∧
    st' = createdState env value st jobId provider := by
  unfold createEscrow at h
  split_ifs at h with h1 h2 h3 h4 h5 <;> simp_all

/-- Inversion of a successful `payoutRelease`: all guards passed and the
result is `releasedState`. -/
theorem payoutRelease_ok {env : CallEnv} {st : ContractState} {jobId ph : B32}
    {st' : ContractState} (h : payoutRelease env st jobId ph = .ok st') :
    (st.escrows jobId).amount ≤ st.lockedBalance (st.escrows jobId).buyer ∧
    st.providerEarnings (st.escrows jobId).provider + (st.escrows jobId).amount
      ≤ UINT256_MAX ∧
    env.transferOk (st.escrows jobId).provider = true ∧
    (st.escrows jobId).amount ≤ st.balance ∧
    st' = releasedState st jobId ph := by
  unfold payoutRelease at h
  split_ifs at h with h1 h2 h3 <;> simp_all

/-- Inversion of a successful `releaseEscrow`. -/
theorem releaseEscrow_ok {env : CallEnv} {st : ContractState} {jobId ph : B32}
    {st' : ContractState} (h : releaseEscrow env st jobId ph = .ok st') :
    (st.escrows jobId).amount ≠ 0 ∧
    (st.escrows jobId).isReleased = false ∧
    (st.escrows jobId).isRefunded = false ∧
    (env.sender = (st.escrows jobId).buyer ∨ env.sender = st.owner) ∧
    payoutRelease env st jobId ph = .ok st' := by
  unfold releaseEscrow at h
  split_ifs at h with h1 h2 h3 h4 <;> simp_all

/-- Inversion of a successful `releaseWithProof`. -/
theorem releaseWithProof_ok {env : CallEnv} {st : ContractState} {jobId : B32}
    {proof inputs : List Nat} {st' : ContractState}
    (h : releaseWithProof env st jobId proof inputs = .ok st') :
    (st.escrows jobId).amount ≠ 0 ∧
    (st.escrows jobId).isReleased = false ∧
    (st.escrows jobId).isRefunded = false ∧
    st.verifierContract ≠ 0 ∧
    (env.verifierAt st.verifierContract proof inputs).isSome = true ∧
    payoutRelease env st jobId (keccak256 proof) = .ok st' := by
  unfold releaseWithProof at h
  split_ifs at h with h1 h2 h3 h4 h5 <;> simp_all

/-- Inversion of a successful `payoutRefund`. -/
theorem payoutRefund_ok {env : CallEnv} {st : ContractState} {jobId : B32}
    {st' : ContractState} (h : payoutRefund env st jobId = .ok st') :
    (st.escrows jobId).amount ≤ st.lockedBalance (st.escrows jobId).buyer ∧
    env.transferOk (st.escrows jobId).buyer = true ∧
    (st.escrows jobId).amount ≤ st.balance ∧
    st' = refundedState st jobId := by
  unfold payoutRefund at h
  split_ifs at h with h1 h2 <;> simp_all

/-- Inversion of a successful `refundEscrow`. -/
theorem refundEscrow_ok {env : CallEnv} {st : ContractState} {jobId : B32}
    {st' : ContractState} (h : refundEscrow env st jobId = .ok st') :
    (st.escrows jobId).amount ≠ 0 ∧
    (st.escrows jobId).isReleased = false ∧
    (st.escrows jobId).isRefunded = false ∧
    (env.sender = (st.escrows jobId).buyer ∨ env.sender = st.owner) ∧
    payoutRefund env st jobId = .ok st' := by
  unfold refundEscrow at h
  split_ifs at h with h1 h2 h3 h4 <;> simp_all

/-- A successful `setVerifier` only changes `verifierContract`. -/
theorem setVerifier_ok {env : CallEnv} {st : ContractState} {v : Address}
    {st' : ContractState} (h : setVerifier env st v = .ok st') :
    st' = { st with verifierContract := v } := by
  unfold setVerifier at h
  split_ifs at h <;> simp_all

/-- A successful `transferOwnership` only changes `owner`. -/
theorem transferOwnership_ok {env : CallEnv} {st : ContractState} {o : Address}
    {st' : ContractState} (h : transferOwnership env st o = .ok st') :
    st' = { st with owner := o } := by
  unfold transferOwnership at h
  split_ifs at h <;> simp_all

/-- A successful `emergencyWithdraw` only zeroes the balance. -/
theorem emergencyWithdraw_ok {env : CallEnv} {st : ContractState}
    {st' : ContractState} (h : emergencyWithdraw env st = .ok st') :
    st' = { st with balance := 0 } := by
  unfold emergencyWithdraw at h
  split_ifs at h <;> simp_all

/-! ### The per-record invariant and its preservation -/

/-- Invariant of every reachable state: no record has both terminal flags,
and a record with a terminal flag has a nonzero amount (so `createEscrow`
can never overwrite it). -/
def Inv (st : ContractState) : Prop :=
  ∀ j : B32,
    ¬((st.escrows j).isReleased = true ∧ (st.escrows j).isRefunded = true) ∧
    ((st.escrows j).isReleased = true ∨ (st.escrows j).isRefunded = true →
      (st.escrows j).amount ≠ 0)

theorem inv_init (deployer : Address) : Inv (initState deployer) := by
  intro j
  simp [initState, rec0]

/-- `Inv` depends only on the `escrows` field. -/
theorem inv_congr {st st' : ContractState} (h : st'.escrows = st.escrows)
    (hInv : Inv st) : Inv st' := by
  intro j
  rw [h]
  exact hInv j

theorem inv_createdState {env : CallEnv} {value : Nat} {st : ContractState}
    {jobId : B32} {provider : Address} (hInv : Inv st) :
    Inv (createdState env value st jobId provider) := by
  intro j
  by_cases hj : j = jobId
  · subst hj
    simp [createdState, upd_same]
  · simpa [createdState, upd_ne _ _ _ hj] using hInv j

theorem inv_releasedState {st : ContractState} {jobId ph : B32}
    (hInv : Inv st) (hamt : (st.escrows jobId).amount ≠ 0)
    (href : (st.escrows jobId).isRefunded = false) :
    Inv (releasedState st jobId ph) := by
  intro j
  by_cases hj : j = jobId
  · subst hj
    simp [releasedState, upd_same, href, hamt]
  · simpa [releasedState, upd_ne _ _ _ hj] using hInv j

theorem inv_refundedState {st : ContractState} {jobId : B32}
    (hInv : Inv st) (hamt : (st.escrows jobId).amount ≠ 0)
    (hrel : (st.escrows jobId).isReleased = false) :
    Inv (refundedState st jobId) := by
  intro j
  by_cases hj : j = jobId
  · subst hj
    simp [refundedState, upd_same, hrel, hamt]
  · simpa [refundedState, upd_ne _ _ _ hj] using hInv j

/-- Every transaction preserves the invariant. -/
theorem inv_applyOp (st : ContractState) (op : Op) (hInv : Inv st) :
    Inv (applyOp st op) := by
  cases op with
  | create env v j p =>
    rcases hE : createEscrow env v st j p with e | st'
    · simpa [applyOp, exec, hE] using hInv
    · obtain ⟨-, -, -, -, -, hst'⟩ := createEscrow_ok hE
      simpa [applyOp, exec, hE, hst'] using inv_createdState hInv
  | release env j ph =>
    rcases hE : releaseEscrow env st j ph with e | st'
    · simpa [applyOp, exec, hE] using hInv
    · obtain ⟨hamt, -, href, -, hpo⟩ := releaseEscrow_ok hE
      obtain ⟨-, -, -, -, hst'⟩ := payoutRelease_ok hpo
      simpa [applyOp, exec, hE, hst'] using inv_releasedState hInv hamt href
  | releaseP env j pf ins =>
    rcases hE : releaseWithProof env st j pf ins with e | st'
    · simpa [applyOp, exec, hE] using hInv
    · obtain ⟨hamt, -, href, -, -, hpo⟩ := releaseWithProof_ok hE
      obtain ⟨-, -, -, -, hst'⟩ := payoutRelease_ok hpo
      simpa [applyOp, exec, hE, hst'] using inv_releasedState hInv hamt href
  | refund env j =>
    rcases hE : refundEscrow env st j with e | st'
    · simpa [applyOp, exec, hE] using hInv
    · obtain ⟨hamt, hrel, -, -, hpo⟩ := refundEscrow_ok hE
      obtain ⟨-, -, -, hst'⟩ := payoutRefund_ok hpo
      simpa [applyOp, exec, hE, hst'] using inv_refundedState hInv hamt hrel
  | setVer env v =>
    rcases hE : setVerifier env st v with e | st'
    · simpa [applyOp, exec, hE] using hInv
    · rw [setVerifier_ok hE] at *
      simpa [applyOp, exec, hE] using inv_congr rfl hInv
  | transferOwn env o =>
    rcases hE : transferOwnership env st o with e | st'
    · simpa [applyOp, exec, hE] using hInv
    · rw [transferOwnership_ok hE] at *
      simpa [applyOp, exec, hE] using inv_congr rfl hInv
  | withdraw env =>
    rcases hE : emergencyWithdraw env st with e | st'
    · simpa [applyOp, exec, hE] using hInv
    · rw [emergencyWithdraw_ok hE] at *
      simpa [applyOp, exec, hE] using inv_congr rfl hInv
  | recv v =>
    exact inv_congr rfl hInv

/-- Every reachable state satisfies the invariant. -/
theorem reachable_inv {st : ContractState} (h : Reachable st) : Inv st := by
  induction h with
  | init d => exact inv_init d
  | step op _ ih => exact inv_applyOp _ op ih

/-- Frame property: once a record is terminal (and the invariant holds),
no single transaction changes that record. -/
theorem applyOp_terminal_frame (st : ContractState) (op : Op) (j : B32)
    (hInv : Inv st)
    (ht : (st.escrows j).isReleased = true ∨ (st.escrows j).isRefunded = true) :
    (applyOp st op).escrows j = st.escrows j := by
  have hamt : (st.escrows j).amount ≠ 0 := (hInv j).2 ht
  cases op with
  | create env v j' p =>
    rcases hE : createEscrow env v st j' p with e | st'
    · simp [applyOp, exec, hE]
    · obtain ⟨-, -, -, hzero, -, hst'⟩ := createEscrow_ok hE
      have hne : j ≠ j' := by
        intro hjj
        exact hamt (hjj ▸ hzero)
      simp [applyOp, exec, hE, hst', createdState, upd_ne _ _ _ hne]
  | release env j' ph =>
    rcases hE : releaseEscrow env st j' ph with e | st'
    · simp [applyOp, exec, hE]
    · obtain ⟨-, hrel, href, -, hpo⟩ := releaseEscrow_ok hE
      obtain ⟨-, -, -, -, hst'⟩ := payoutRelease_ok hpo
      have hne : j ≠ j' := by
        intro hjj
        subst hjj
        rcases ht with ht | ht
        · exact absurd ht (by simp [hrel])
        · exact absurd ht (by simp [href])
      simp [applyOp, exec, hE, hst', releasedState, upd_ne _ _ _ hne]
  | releaseP env j' pf ins =>
    rcases hE : releaseWithProof env st j' pf ins with e | st'
    · simp [applyOp, exec, hE]
    · obtain ⟨-, hrel, href, -, -, hpo⟩ := releaseWithProof_ok hE
      obtain ⟨-, -, -, -, hst'⟩ := payoutRelease_ok hpo
      have hne : j ≠ j' := by
        intro hjj
        subst hjj
        rcases ht with ht | ht
        · exact absurd ht (by simp [hrel])
        · exact absurd ht (by simp [href])
      simp [applyOp, exec, hE, hst', releasedState, upd_ne _ _ _ hne]
  | refund env j' =>
    rcases hE : refundEscrow env st j' with e | st'
    · simp [applyOp, exec, hE]
    · obtain ⟨-, hrel, href, -, hpo⟩ := refundEscrow_ok hE
      obtain ⟨-, -, -, hst'⟩ := payoutRefund_ok hpo
      have hne : j ≠ j' := by
        intro hjj
        subst hjj
        rcases ht with ht | ht
        · exact absurd ht (by simp [hrel])
        · exact absurd ht (by simp [href])
      simp [applyOp, exec, hE, hst', refundedState, upd_ne _ _ _ hne]
  | setVer env v =>
    rcases hE : setVerifier env st v with e | st'
    · simp [applyOp, exec, hE]
    · simp [applyOp, exec, hE, setVerifier_ok hE]
  | transferOwn env o =>
    rcases hE : transferOwnership env st o with e | st'
    · simp [applyOp, exec, hE]
    · simp [applyOp, exec, hE, transferOwnership_ok hE]
  | withdraw env =>
    rcases hE : emergencyWithdraw env st with e | st'
    · simp [applyOp, exec, hE]
    · simp [applyOp, exec, hE, emergencyWithdraw_ok hE]
  | recv v =>
    simp [applyOp, receiveEth]

/-- Frame property extended to arbitrary transaction sequences. -/
theorem foldl_terminal_frame (ops : List Op) (st : ContractState) (j : B32)
    (hInv : Inv st)
    (ht : (st.escrows j).isReleased = true ∨ (st.escrows j).isRefunded = true) :
    (ops.foldl applyOp st).escrows j = st.escrows j := by
  induction ops generalizing st with
  | nil => rfl
  | cons op ops ih =>
    have hframe := applyOp_terminal_frame st op j hInv ht
    have := ih (applyOp st op) (inv_applyOp st op hInv) (by rw [hframe]; exact ht)
    simpa [hframe] using this

/-! ### Concrete sample data used by witnesses and counterexamples -/

/-- A buyer call environment: sender `2`, every recipient accepts ETH,
every verifier call succeeds returning `true`. -/
def envBuyer : CallEnv :=
  { sender := 2, timestamp := 100, transferOk := fun _ => true
    verifierAt := fun _ _ _ => some true }

/-- The administrator (owner `1`) calling late (timestamp `200`). -/
def envOwner : CallEnv :=
  { sender := 1, timestamp := 200, transferOk := fun _ => true
    verifierAt := fun _ _ _ => some true }

/-- A caller who is neither the buyer nor the owner of `stPending`. -/
def envStranger : CallEnv :=
  { sender := 99, timestamp := 100, transferOk := fun _ => true
    verifierAt := fun _ _ _ => some true }

/-- A buyer call environment where no recipient accepts ETH, so every
payout transfer fails. -/
def envNoPay : CallEnv :=
  { sender := 2, timestamp := 100, transferOk := fun _ => false
    verifierAt := fun _ _ _ => some true }

/-- A call environment whose verifier call always succeeds but returns
the boolean `false` — a verifier that reports verification failure. -/
def envFalseVerifier : CallEnv :=
  { sender := 7, timestamp := 100, transferOk := fun _ => true
    verifierAt := fun _ _ _ => some false }

/-- A state with one pending escrow: owner `1`, verifier configured at
address `5`, job `10` funded by buyer `2` for provider `3` with amount
`4`, created at time `100`. -/
def stPending : ContractState :=
  { owner := 1, verifierContract := 5
    escrows := upd (fun _ => rec0) 10
      { buyer := 2, provider := 3, amount := 4, createdAt := 100
        isReleased := false, isRefunded := false, proofHash := 0 }
    lockedBalance := upd (fun _ => 0) 2 4
    providerEarnings := fun _ => 0, balance := 4 }

/-! ### Claim theorems -/

/-- Claim C3: `createEscrow` fails with `InvalidAmount` when the sent
amount is zero; with `InvalidProvider` when the provider is the zero
address or the caller; with `DuplicateJob` when a nonzero-amount record
already exists for the job id, regardless of who calls; and otherwise
(given the checked addition on the buyer's locked balance does not
overflow) succeeds, storing a fresh record whose buyer is the caller. -/
theorem c3_createEscrow_validation :
    (∀ (env : CallEnv) (st : ContractState) (jobId : B32) (provider : Address),
      createEscrow env 0 st jobId provider = .error .invalidAmount) ∧
    (∀ (env : CallEnv) (value : Nat) (st : ContractState) (jobId : B32)
        (provider : Address), value ≠ 0 → (provider = 0 ∨ provider = env.sender) →
      createEscrow env value st jobId provider = .error .invalidProvider) ∧
    (∀ (env : CallEnv) (value : Nat) (st : ContractState) (jobId : B32)
        (provider : Address), value ≠ 0 → provider ≠ 0 → provider ≠ env.sender →
      (st.escrows jobId).amount ≠ 0 →
      createEscrow env value st jobId provider = .error .duplicateJob) ∧
    (∀ (env : CallEnv) (value : Nat) (st : ContractState) (jobId : B32)
        (provider : Address), value ≠ 0 → provider ≠ 0 → provider ≠ env.sender →
      (st.escrows jobId).amount = 0 →
      st.lockedBalance env.sender + value ≤ UINT256_MAX →
      createEscrow env value st jobId provider
        = .ok (createdState env value st jobId provider) ∧
      ((createdState env value st jobId provider).escrows jobId).buyer = env.sender) := by
  refine ⟨?_, ?_, ?_, ?_⟩
  · intro env st jobId provider
    simp [createEscrow]
  · intro env value st jobId provider h1 h2
    rcases h2 with h2 | h2 <;> subst h2 <;> simp [createEscrow, h1]
  · intro env value st jobId provider h1 h2 h3 h4
    simp [createEscrow, h1, h2, h3, h4]
  · intro env value st jobId provider h1 h2 h3 h4 h5
    constructor
    · simp [createEscrow, h1, h2, h3, h4, h5]
    · simp [createdState, upd_same]

/-- Claim C3 witness: a concrete run of each of the four cases. -/
theorem c3_witness :
    createEscrow envBuyer 0 (initState 1) 10 3 = .error .invalidAmount ∧
    createEscrow envBuyer 4 (initState 1) 10 2 = .error .invalidProvider ∧
    createEscrow envStranger 4 stPending 10 3 = .error .duplicateJob ∧
    (createEscrow envBuyer 4 (initState 1) 10 3
        = .ok (createdState envBuyer 4 (initState 1) 10 3) ∧
      ((createdState envBuyer 4 (initState 1) 10 3).escrows 10).buyer = 2) :=
  ⟨c3_createEscrow_validation.1 envBuyer (initState 1) 10 3,
   c3_createEscrow_validation.2.1 envBuyer 4 (initState 1) 10 2
     (by decide) (Or.inr (by decide)),
   c3_createEscrow_validation.2.2.1 envStranger 4 stPending 10 3
     (by decide) (by decide) (by decide) (by decide),
   c3_createEscrow_validation.2.2.2 envBuyer 4 (initState 1) 10 3
     (by decide) (by decide) (by decide) (by decide) (by decide)⟩

/-- Claim C4: whenever `releaseEscrow` succeeds, the provider's earnings
aggregate grows by exactly the record's amount, the buyer's locked
balance shrinks by exactly the record's amount, the record is marked
released, and the supplied proof hash is stored in it. -/
theorem c4_releaseEscrow_effects (env : CallEnv) (st : ContractState)
    (jobId ph : B32) (st' : ContractState)
    (h : releaseEscrow env st jobId ph = .ok st') :
    st'.providerEarnings (st.escrows jobId).provider
      = st.providerEarnings (st.escrows jobId).provider + (st.escrows jobId).amount ∧
    st'.lockedBalance (st.escrows jobId).buyer + (st.escrows jobId).amount
      = st.lockedBalance (st.escrows jobId).buyer ∧
    (st'.escrows jobId).isReleased = true ∧
    (st'.escrows jobId).proofHash = ph := by
  obtain ⟨-, -, -, -, hpo⟩ := releaseEscrow_ok h
  obtain ⟨hle, -, -, -, hst'⟩ := payoutRelease_ok hpo
  subst hst'
  refine ⟨?_, ?_, ?_, ?_⟩
  · simp [releasedState, upd_same]
  · simp [releasedState, upd_same, Nat.sub_add_cancel hle]
  · simp [releasedState, upd_same]
  · simp [releasedState, upd_same]

/-- Claim C4 witness: the buyer releases job `10` of `stPending`;
earnings of provider `3` go `0 → 4`, locked balance of buyer `2` goes
`4 → 0`, the record is released with proof hash `77`. -/
theorem c4_witness :
    releaseEscrow envBuyer stPending 10 77 = .ok (releasedState stPending 10 77) ∧
    ((releasedState stPending 10 77).providerEarnings 3 = 4 ∧
     (releasedState stPending 10 77).lockedBalance 2 + 4 = 4 ∧
     ((releasedState stPending 10 77).escrows 10).isReleased = true ∧
     ((releasedState stPending 10 77).escrows 10).proofHash = 77) :=
  ⟨rfl, c4_releaseEscrow_effects envBuyer stPending 10 77
    (releasedState stPending 10 77) rfl⟩

/-- Claim C5: whenever `refundEscrow` succeeds, only the buyer's locked
balance changes among the aggregates — it shrinks by exactly the
record's amount, every other party's locked balance is untouched, every
provider's earnings are untouched — and the record is marked refunded. -/
theorem c5_refundEscrow_frame (env : CallEnv) (st : ContractState)
    (jobId : B32) (st' : ContractState)
    (h : refundEscrow env st jobId = .ok st') :
    st'.lockedBalance (st.escrows jobId).buyer + (st.escrows jobId).amount
      = st.lockedBalance (st.escrows jobId).buyer ∧
    (∀ a : Address, a ≠ (st.escrows jobId).buyer →
      st'.lockedBalance a = st.lockedBalance a) ∧
    (∀ p : Address, st'.providerEarnings p = st.providerEarnings p) ∧
    (st'.escrows jobId).isRefunded = true := by
  obtain ⟨-, -, -, -, hpo⟩ := refundEscrow_ok h
  obtain ⟨hle, -, -, hst'⟩ := payoutRefund_ok hpo
  subst hst'
  refine ⟨?_, ?_, ?_, ?_⟩
  · simp [refundedState, upd_same, Nat.sub_add_cancel hle]
  · intro a ha
    simp [refundedState, upd_ne _ _ _ ha]
  · intro p
    simp [refundedState]
  · simp [refundedState, upd_same]

/-- Claim C5 witness: the administrator refunds job `10` of `stPending`;
buyer `2`'s locked balance goes `4 → 0`, stranger `9`'s locked balance
and provider `3`'s earnings are untouched, the record is refunded. -/
theorem c5_witness :
    refundEscrow envOwner stPending 10 = .ok (refundedState stPending 10) ∧
    ((refundedState stPending 10).lockedBalance 2 + 4 = 4 ∧
     (∀ a : Address, a ≠ 2 →
       (refundedState stPending 10).lockedBalance a = stPending.lockedBalance a) ∧
     (∀ p : Address,
       (refundedState stPending 10).providerEarnings p = stPending.providerEarnings p) ∧
     ((refundedState stPending 10).escrows 10).isRefunded = true) :=
  ⟨rfl, c5_refundEscrow_frame envOwner stPending 10 (refundedState stPending 10) rfl⟩

/-- Claim C6: on a pending record, (a) a buyer who is not the
administrator gets `TooEarly` whenever the call is not after
`createdAt + 24h`; (b) the administrator's refund goes through at any
timestamp (given the usual payout-side conditions); (c) a caller who is
neither buyer nor administrator always gets `Unauthorized`. -/
theorem c6_refund_authorization_timing :
    (∀ (env : CallEnv) (st : ContractState) (jobId : B32),
      (st.escrows jobId).amount ≠ 0 →
      (st.escrows jobId).isReleased = false →
      (st.escrows jobId).isRefunded = false →
      env.sender = (st.escrows jobId).buyer →
      env.sender ≠ st.owner →
      (st.escrows jobId).createdAt + 86400 ≤ UINT256_MAX →
      env.timestamp ≤ (st.escrows jobId).createdAt + 86400 →
      refundEscrow env st jobId = .error .tooEarly) ∧
    (∀ (env : CallEnv) (st : ContractState) (jobId : B32),
      (st.escrows jobId).amount ≠ 0 →
      (st.escrows jobId).isReleased = false →
      (st.escrows jobId).isRefunded = false →
      env.sender = st.owner →
      (st.escrows jobId).createdAt + 86400 ≤ UINT256_MAX →
      (st.escrows jobId).amount ≤ st.lockedBalance (st.escrows jobId).buyer →
      env.transferOk (st.escrows jobId).buyer = true →
      (st.escrows jobId).amount ≤ st.balance →
      refundEscrow env st jobId = .ok (refundedState st jobId)) ∧
    (∀ (env : CallEnv) (st : ContractState) (jobId : B32),
      (st.escrows jobId).amount ≠ 0 →
      env.sender ≠ (st.escrows jobId).buyer →
      env.sender ≠ st.owner →
      (st.escrows jobId).isReleased = false →
      (st.escrows jobId).isRefunded = false →
      refundEscrow env st jobId = .error .unauthorized) := by
  refine ⟨?_, ?_, ?_⟩
  · intro env st jobId h1 h2 h3 h4 h5 h6 h7
    unfold refundEscrow
    split_ifs <;> simp_all <;> omega
  · intro env st jobId h1 h2 h3 h4 h5 h6 h7 h8
    unfold refundEscrow payoutRefund
    split_ifs <;> simp_all
  · intro env st jobId h1 h2 h3 h4 h5
    unfold refundEscrow
    split_ifs <;> simp_all

/-- Claim C6 witness: on `stPending` (created at `100`), the buyer's
refund at timestamp `100` fails with `TooEarly`; the administrator's
refund at the same kind of moment succeeds; stranger `99` is rejected. -/
theorem c6_witness :
    refundEscrow envBuyer stPending 10 = .error .tooEarly ∧
    refundEscrow envOwner stPending 10 = .ok (refundedState stPending 10) ∧
    refundEscrow envStranger stPending 10 = .error .unauthorized :=
  ⟨c6_refund_authorization_timing.1 envBuyer stPending 10 (by decide) (by decide)
      (by decide) (by decide) (by decide) (by norm_num [stPending, upd, UINT256_MAX])
      (by norm_num [stPending, upd, envBuyer]),
   c6_refund_authorization_timing.2.1 envOwner stPending 10 (by decide) (by decide)
      (by decide) (by decide) (by norm_num [stPending, upd, UINT256_MAX])
      (by decide) (by decide) (by decide),
   c6_refund_authorization_timing.2.2 envStranger stPending 10 (by decide)
      (by decide) (by decide) (by decide) (by decide)⟩

/-- Claim C7: on an existing record that is already terminal (released or
refunded), each of the three settlement entry points fails with
`AlreadySettled`, and the reverted transaction leaves the whole contract
state — record, locked balances, earnings — unchanged. -/
theorem c7_settled_operations_fail (env : CallEnv) (st : ContractState)
    (jobId ph : B32) (proof inputs : List Nat)
    (hex : (st.escrows jobId).amount ≠ 0)
    (ht : (st.escrows jobId).isReleased = true ∨ (st.escrows jobId).isRefunded = true) :
    releaseEscrow env st jobId ph = .error .alreadySettled ∧
    releaseWithProof env st jobId proof inputs = .error .alreadySettled ∧
    refundEscrow env st jobId = .error .alreadySettled ∧
    applyOp st (.release env jobId ph) = st ∧
    applyOp st (.releaseP env jobId proof inputs) = st ∧
    applyOp st (.refund env jobId) = st := by
  have h1 : releaseEscrow env st jobId ph = .error .alreadySettled := by
    by_cases hrel : (st.escrows jobId).isReleased = true
    · simp [releaseEscrow, hex, hrel]
    · have href := ht.resolve_left hrel
      simp [releaseEscrow, hex, hrel, href]
  have h2 : releaseWithProof env st jobId proof inputs = .error .alreadySettled := by
    by_cases hrel : (st.escrows jobId).isReleased = true
    · simp [releaseWithProof, hex, hrel]
    · have href := ht.resolve_left hrel
      simp [releaseWithProof, hex, hrel, href]
  have h3 : refundEscrow env st jobId = .error .alreadySettled := by
    by_cases hrel : (st.escrows jobId).isReleased = true
    · simp [refundEscrow, hex, hrel]
    · have href := ht.resolve_left hrel
      simp [refundEscrow, hex, hrel, href]
  exact ⟨h1, h2, h3, by simp [applyOp, exec, h1], by simp [applyOp, exec, h2],
    by simp [applyOp, exec, h3]⟩

/-- Claim C7 witness: job `10` of `stPending` released with hash `77`; a
second release, a proof-path release and a refund all fail with
`AlreadySettled` and leave the state unchanged. -/
theorem c7_witness :
    releaseEscrow envBuyer (releasedState stPending 10 77) 10 88
      = .error .alreadySettled ∧
    releaseWithProof envBuyer (releasedState stPending 10 77) 10 [1] [2]
      = .error .alreadySettled ∧
    refundEscrow envBuyer (releasedState stPending 10 77) 10
      = .error .alreadySettled ∧
    applyOp (releasedState stPending 10 77) (.release envBuyer 10 88)
      = releasedState stPending 10 77 ∧
    applyOp (releasedState stPending 10 77) (.releaseP envBuyer 10 [1] [2])
      = releasedState stPending 10 77 ∧
    applyOp (releasedState stPending 10 77) (.refund envBuyer 10)
      = releasedState stPending 10 77 :=
  c7_settled_operations_fail envBuyer (releasedState stPending 10 77) 10 88 [1] [2]
    (by decide) (Or.inl (by decide))

/-- Claim C2: in every reachable state, no record ever has both terminal
flags set; and once a record carries a terminal flag, no further
sequence of transactions changes that record in any way. -/
theorem c2_flags_exclusive_terminal_frozen (st : ContractState)
    (h : Reachable st) :
    (∀ j : B32,
      ¬((st.escrows j).isReleased = true ∧ (st.escrows j).isRefunded = true)) ∧
    (∀ j : B32,
      (st.escrows j).isReleased = true ∨ (st.escrows j).isRefunded = true →
      ∀ ops : List Op, (ops.foldl applyOp st).escrows j = st.escrows j) := by
  have hInv := reachable_inv h
  exact ⟨fun j => (hInv j).1,
    fun j ht ops => foldl_terminal_frame ops st j hInv ht⟩

/-- The reachable state used by the C2 witness: deploy as `1`, create job
`11` (buyer `2`, provider `3`, amount `5`), then release it. -/
def stWit : ContractState :=
  applyOp (applyOp (initState 1) (.create envBuyer 5 11 3)) (.release envBuyer 11 77)

/-- Claim C2 witness: the invariant and the frame property instantiated at
a concrete reachable state containing a released record. -/
theorem c2_witness :
    (∀ j : B32,
      ¬((stWit.escrows j).isReleased = true ∧ (stWit.escrows j).isRefunded = true)) ∧
    (∀ j : B32,
      (stWit.escrows j).isReleased = true ∨ (stWit.escrows j).isRefunded = true →
      ∀ ops : List Op, (ops.foldl applyOp stWit).escrows j = stWit.escrows j) :=
  c2_flags_exclusive_terminal_frozen stWit
    (Reachable.step (Op.release envBuyer 11 77)
      (Reachable.step (Op.create envBuyer 5 11 3) (Reachable.init 1)))

/-- Claim C1 (code bug, evaluated at the failing input): on the pending
job `10`, with no verifier configured the call does fail with
`VerifierNotConfigured`, and a verifier whose call itself reverts does
yield `VerificationFailed`; but a configured verifier that runs and
returns the boolean `false` does NOT make the call fail — the source
binds only the call-success flag of the low-level call and discards the
returned boolean, so the escrow is released and the job stops being
pending, contradicting the claimed `VerificationFailed` outcome. -/
theorem c1_false_verifier_still_releases :
    releaseWithProof envFalseVerifier { stPending with verifierContract := 0 }
      10 [1] [] = .error .verifierNotConfigured ∧
    releaseWithProof { envFalseVerifier with verifierAt := fun _ _ _ => none }
      stPending 10 [1] [] = .error .verificationFailed ∧
    releaseWithProof envFalseVerifier stPending 10 [1] []
      = .ok (releasedState stPending 10 (keccak256 [1])) ∧
    ((releasedState stPending 10 (keccak256 [1])).escrows 10).isReleased = true ∧
    isPending (releasedState stPending 10 (keccak256 [1])) 10 = false ∧
    (releasedState stPending 10 (keccak256 [1])).lockedBalance 2 = 0 ∧
    (releasedState stPending 10 (keccak256 [1])).providerEarnings 3 = 4 :=
  ⟨rfl, rfl, rfl, by decide, by decide, by decide, by decide⟩

/-- Claim C8 counterexample: buyer releases job `10` of `stPending` but
provider `3` rejects the payout, so the transfer fails.  The call fails
with `TransferFailed` and — contrary to the claim — the record is NOT
left marked settled: the revert rolls back the flag and balance writes,
so after the failed transaction the job is exactly as before, still
pending. -/
theorem c8_counterexample :
    releaseEscrow envNoPay stPending 10 77 = .error .transferFailed ∧
    applyOp stPending (.release envNoPay 10 77) = stPending ∧
    ((applyOp stPending (.release envNoPay 10 77)).escrows 10).isReleased = false ∧
    ((applyOp stPending (.release envNoPay 10 77)).escrows 10).isRefunded = false ∧
    isPending (applyOp stPending (.release envNoPay 10 77)) 10 = true :=
  ⟨rfl, rfl, by decide, by decide, by decide⟩

/-- Claim C8 as amended: the flag and balance writes appear before the
transfer in the source's statement order, but the `require` on the
transfer result reverts the whole call, so a failed payout yields
`TransferFailed` with the record NOT marked settled and every balance
unchanged — for `releaseEscrow` and for `refundEscrow` alike. -/
theorem c8_transfer_failure_reverts :
    (∀ (env : CallEnv) (st : ContractState) (jobId ph : B32),
      (st.escrows jobId).amount ≠ 0 →
      (st.escrows jobId).isReleased = false →
      (st.escrows jobId).isRefunded = false →
      (env.sender = (st.escrows jobId).buyer ∨ env.sender = st.owner) →
      (st.escrows jobId).amount ≤ st.lockedBalance (st.escrows jobId).buyer →
      st.providerEarnings (st.escrows jobId).provider + (st.escrows jobId).amount
        ≤ UINT256_MAX →
      ¬(env.transferOk (st.escrows jobId).provider = true ∧
        (st.escrows jobId).amount ≤ st.balance) →
      releaseEscrow env st jobId ph = .error .transferFailed ∧
      applyOp st (.release env jobId ph) = st) ∧
    (∀ (env : CallEnv) (st : ContractState) (jobId : B32),
      (st.escrows jobId).amount ≠ 0 →
      (st.escrows jobId).isReleased = false →
      (st.escrows jobId).isRefunded = false →
      env.sender = st.owner →
      (st.escrows jobId).createdAt + 86400 ≤ UINT256_MAX →
      (st.escrows jobId).amount ≤ st.lockedBalance (st.escrows jobId).buyer →
      ¬(env.transferOk (st.escrows jobId).buyer = true ∧
        (st.escrows jobId).amount ≤ st.balance) →
      refundEscrow env st jobId = .error .transferFailed ∧
      applyOp st (.refund env jobId) = st) := by
  constructor
  · intro env st jobId ph h1 h2 h3 h4 h5 h6 h7
    have herr : releaseEscrow env st jobId ph = .error .transferFailed := by
      unfold releaseEscrow payoutRelease
      split_ifs <;> simp_all
    exact ⟨herr, by simp [applyOp, exec, herr]⟩
  · intro env st jobId h1 h2 h3 h4 h5 h6 h7
    have herr : refundEscrow env st jobId = .error .transferFailed := by
      unfold refundEscrow payoutRefund
      split_ifs <;> simp_all
    exact ⟨herr, by simp [applyOp, exec, herr]⟩

/-- Claim C8 witness (for the amended claim): concrete failing transfers
on `stPending` for both settlement paths. -/
theorem c8_witness :
    (releaseEscrow envNoPay stPending 10 99 = .error .transferFailed ∧
     applyOp stPending (.release envNoPay 10 99) = stPending) ∧
    (refundEscrow { envNoPay with sender := 1 } stPending 10
        = .error .transferFailed ∧
     applyOp stPending (.refund { envNoPay with sender := 1 } 10) = stPending) :=
  ⟨c8_transfer_failure_reverts.1 envNoPay stPending 10 99 (by decide) (by decide)
      (by decide) (Or.inl (by decide)) (by decide)
      (by norm_num [stPending, upd, UINT256_MAX]) (by decide),
   c8_transfer_failure_reverts.2 { envNoPay with sender := 1 } stPending 10
      (by decide) (by decide) (by decide) (by decide)
      (by norm_num [stPending, upd, UINT256_MAX]) (by decide) (by decide)⟩

/-- Claim C9 counterexample: `stPending` holds exactly the 4 wei backing
the still-pending job `10`, yet the administrator's `emergencyWithdraw`
sweeps the ENTIRE balance to the owner: afterwards the contract balance
is `0` while job `10` is still pending with `amount = 4` and buyer `2`
still has locked balance `4` — the funds backing an open escrow were
removed, contradicting the claim. -/
theorem c9_counterexample :
    isPending stPending 10 = true ∧
    (stPending.escrows 10).amount = 4 ∧
    stPending.balance = 4 ∧
    emergencyWithdraw envOwner stPending = .ok { stPending with balance := 0 } ∧
    ({ stPending with balance := 0 } : ContractState).balance = 0 ∧
    isPending { stPending with balance := 0 } 10 = true ∧
    ({ stPending with balance := 0 } : ContractState).lockedBalance 2 = 4 :=
  ⟨by decide, by decide, by decide, rfl, by decide, by decide, by decide⟩

/-- Claim C9 as amended: `emergencyWithdraw` is administrator-only (any
other caller is rejected), and a successful call transfers the entire
contract balance — `address(this).balance`, with no deduction for open
escrows — to the owner, leaving the balance at zero. -/
theorem c9_emergencyWithdraw_sweeps_everything :
    (∀ (env : CallEnv) (st : ContractState), env.sender ≠ st.owner →
      emergencyWithdraw env st = .error .onlyOwner) ∧
    (∀ (env : CallEnv) (st : ContractState), env.sender = st.owner →
      env.transferOk st.owner = true →
      emergencyWithdraw env st = .ok { st with balance := 0 }) := by
  constructor
  · intro env st h
    simp [emergencyWithdraw, h]
  · intro env st h1 h2
    simp [emergencyWithdraw, h1, h2]

/-- Claim C9 witness (for the amended claim): stranger `99` is rejected;
the owner's sweep empties `stPending`'s balance. -/
theorem c9_witness :
    emergencyWithdraw envStranger stPending = .error .onlyOwner ∧
    emergencyWithdraw envOwner stPending = .ok { stPending with balance := 0 } :=
  ⟨c9_emergencyWithdraw_sweeps_everything.1 envStranger stPending (by decide),
   c9_emergencyWithdraw_sweeps_everything.2 envOwner stPending (by decide) (by decide)⟩

/-- Claim C10: `releaseWithProof` never consults `msg.sender` — two calls
that differ only in the caller produce identical results (same success
or error, same post-state); concretely, caller `99`, who is neither the
buyer `2` nor the owner `1` of `stPending`, settles the pending job `10`
through this path. -/
theorem c10_releaseWithProof_caller_independent :
    (∀ (env : CallEnv) (c1 c2 : Address) (st : ContractState) (jobId : B32)
        (proof inputs : List Nat),
      releaseWithProof { env with sender := c1 } st jobId proof inputs =
        releaseWithProof { env with sender := c2 } st jobId proof inputs) ∧
    (envStranger.sender ≠ (stPending.escrows 10).buyer ∧
     envStranger.sender ≠ stPending.owner ∧
     isPending stPending 10 = true ∧
     releaseWithProof envStranger stPending 10 [1, 2] [3]
       = .ok (releasedState stPending 10 (keccak256 [1, 2])) ∧
     ((releasedState stPending 10 (keccak256 [1, 2])).escrows 10).isReleased = true) :=
  ⟨fun _ _ _ _ _ _ _ => rfl, by decide, by decide, by decide, rfl, by decide⟩

end VEscrow
